import Mathlib

/-!
Verification of the ge-track suggestion engine against its specification.

Shallow embedding of the core modules:
  - src/suggest.py   (price selector, aggressiveness adjustment, suggestion engine)
  - src/limits.py    (local purchase-window accountant)
  - src/flipper2_adapter.py (third-party-export accountant)

Conventions of the embedding:
  - Python int is Int; Python float is Rat (exact rational arithmetic; the
    program only multiplies/divides small integers by decimal constants, where
    IEEE doubles and rationals agree on every comparison and truncation that
    the code performs).
  - Python dicts are association lists, first binding wins, insertion order
    preserved; dict.get is dictGet, item assignment is dictSet.
  - Every call site of int(time.time()) receives the sampled value as an
    explicit argument: build_suggestions takes one clock function for the
    sample taken inside _is_fresh_enough and one for the sample taken inside
    _choose_prices_for_item (the Python code re-reads the clock at each of
    these sites, once per item).
  - Python list.sort(key, reverse=True) is a stable descending sort; its
    output is reproduced exactly by List.insertionSort with the reflexive
    descending-lexicographic relation rankLe (any two stable sorts for the
    same total preorder produce the same list).
  - int(x) on a float is truncation toward zero: pyInt.
  - Python floor division on ints is Int.fdiv.
-/

namespace GeTrack

/-- Python int(x) applied to a float: truncation toward zero. -/
def pyInt (q : ℚ) : Int := if 0 ≤ q then ⌊q⌋ else ⌈q⌉

/-- Python dict.get k: first binding of k in the association list, if any. -/
def dictGet {β : Type} (d : List (Int × β)) (k : Int) : Option β :=
  match d with
  | [] => none
  | (a, b) :: t => if k = a then some b else dictGet t k

/-- Python d[k] = v: overwrite the first binding of k, else append (Python
dicts keep insertion order). -/
def dictSet (d : List (Int × Int)) (k v : Int) : List (Int × Int) :=
  match d with
  | [] => [(k, v)]
  | (a, b) :: t => if k = a then (k, v) :: t else (a, b) :: dictSet t k v

/-- ge_api.WikiItem: catalog reference data for one item. -/
structure WikiItem where
  item_id : Int
  name : String
  buy_limit : Option Int
  members : Option Bool
deriving DecidableEq

/-- One entry of the instantaneous ("latest") feed: keys low, high,
lowTime, highTime. none models an absent key or a non-integer value. -/
structure LatestEntry where
  low : Option Int
  high : Option Int
  lowTime : Option Int
  highTime : Option Int
deriving DecidableEq

/-- One entry of the windowed ("1h", also "5m") feed: keys avgLowPrice,
avgHighPrice, lowPriceVolume, highPriceVolume. -/
structure HourEntry where
  avgLowPrice : Option Int
  avgHighPrice : Option Int
  lowPriceVolume : Option Int
  highPriceVolume : Option Int
deriving DecidableEq

/-- suggest.Suggestion, field for field. -/
structure Suggestion where
  item_id : Int
  item_name : String
  buy_limit : Option Int
  buy_price_gp : Int
  sell_price_gp : Int
  unit_profit_gp : Int
  unit_roi : ℚ
  quantity : Int
  total_profit_gp : Int
  hourly_volume : Int
  expected_fill_hours : ℚ
  profit_per_hour_gp : ℚ
  official_ge_price : Option Int
  buy_hourly_volume : Int
  sell_hourly_volume : Int
  buy_fill_hours : ℚ
  sell_fill_hours : ℚ
  remaining_limit : Option Int
deriving DecidableEq

/-- suggest.GE_TAX_RATE = 0.02 (exact as a rational). -/
def GE_TAX_RATE : ℚ := 2 / 100

/-- suggest.GE_TAX_CAP = 5_000_000. -/
def GE_TAX_CAP : Int := 5000000

/-- suggest._compute_tax_per_unit. -/
def _compute_tax_per_unit (unit_sell_price : Int) : Int :=
  min (pyInt ((unit_sell_price : ℚ) * GE_TAX_RATE)) GE_TAX_CAP

/-- suggest._adjust_prices_for_aggressiveness. -/
def _adjust_prices_for_aggressiveness (base_buy base_sell : Int)
    (aggressiveness : ℚ) : Int × Int :=
  if base_buy ≤ 0 ∨ base_sell ≤ 0 ∨ base_sell ≤ base_buy then
    (base_buy, base_sell)
  else
    let spread := base_sell - base_buy
    let buy_adjust := pyInt ((spread : ℚ) * (25 / 100) * max 0 (min 1 aggressiveness))
    let sell_adjust := pyInt ((spread : ℚ) * (25 / 100) * max 0 (min 1 aggressiveness))
    let adj_buy := base_buy + buy_adjust
    let adj_sell := base_sell - sell_adjust
    if adj_sell ≤ adj_buy then (base_buy, base_sell) else (adj_buy, adj_sell)

/-- The common adjustment amount: int(spread * 0.25 * clamped aggressiveness). -/
def adjustAmount (spread : Int) (aggressiveness : ℚ) : Int :=
  pyInt ((spread : ℚ) * (25 / 100) * max 0 (min 1 aggressiveness))

theorem adjustAmount_nonneg (spread : Int) (hsp : 0 ≤ spread) (a : ℚ) :
    0 ≤ adjustAmount spread a := by
  have h0 : (0:ℚ) ≤ (spread : ℚ) * (25 / 100) * max 0 (min 1 a) := by
    have : (0:ℚ) ≤ (spread : ℚ) := by exact_mod_cast hsp
    positivity
  rw [adjustAmount, pyInt, if_pos h0]
  exact Int.floor_nonneg.mpr h0

theorem adjustAmount_twice_lt (spread : Int) (hsp : 1 ≤ spread) (a : ℚ) :
    2 * adjustAmount spread a < spread := by
  set c : ℚ := max 0 (min 1 a) with hc
  have hc0 : 0 ≤ c := le_max_left _ _
  have hc1 : c ≤ 1 := by
    rw [hc]
    rcases le_total (min 1 a) 0 with h | h
    · rw [max_eq_left h]; norm_num
    · rw [max_eq_right h]; exact min_le_left 1 a
  have hspq : (1:ℚ) ≤ (spread : ℚ) := by exact_mod_cast hsp
  have h0 : (0:ℚ) ≤ (spread : ℚ) * (25 / 100) * c := by positivity
  have hval : adjustAmount spread a = ⌊(spread : ℚ) * (25 / 100) * c⌋ := by
    rw [adjustAmount, pyInt, if_pos h0]
  have hle : ((spread : ℚ) * (25 / 100)) * c ≤ (spread : ℚ) * (25 / 100) := by
    calc ((spread : ℚ) * (25 / 100)) * c
        ≤ ((spread : ℚ) * (25 / 100)) * 1 :=
          mul_le_mul_of_nonneg_left hc1 (by positivity)
      _ = (spread : ℚ) * (25 / 100) := by ring
  have hfl : (⌊(spread : ℚ) * (25 / 100) * c⌋ : ℚ) ≤ (spread : ℚ) * (25 / 100) :=
    le_trans (Int.floor_le _) hle
  have h4 : (4 * ⌊(spread : ℚ) * (25 / 100) * c⌋ : Int) ≤ spread := by
    have hm := mul_le_mul_of_nonneg_left hfl (by norm_num : (0:ℚ) ≤ 4)
    have h2 : (4:ℚ) * ((spread : ℚ) * (25 / 100)) = (spread : ℚ) := by ring
    rw [h2] at hm
    exact_mod_cast hm
  have hk0 : 0 ≤ ⌊(spread : ℚ) * (25 / 100) * c⌋ := Int.floor_nonneg.mpr h0
  omega

/-- With a positive profitable base pair, the adjustment never reverts: the
result is exactly the base pair moved inward by adjustAmount on each side. -/
theorem adjust_eq (base_buy base_sell : Int) (a : ℚ)
    (hb : 0 < base_buy) (hs : base_buy < base_sell) :
    _adjust_prices_for_aggressiveness base_buy base_sell a =
      (base_buy + adjustAmount (base_sell - base_buy) a,
       base_sell - adjustAmount (base_sell - base_buy) a) := by
  have hcond : ¬ (base_buy ≤ 0 ∨ base_sell ≤ 0 ∨ base_sell ≤ base_buy) := by omega
  have hlt := adjustAmount_twice_lt (base_sell - base_buy) (by omega) a
  rw [_adjust_prices_for_aggressiveness, if_neg hcond]
  simp only [adjustAmount] at hlt ⊢
  rw [if_neg (by omega)]

/-- The adjusted pair always stays strictly profitable. -/
theorem adjust_spread_pos (base_buy base_sell : Int) (a : ℚ)
    (hb : 0 < base_buy) (hs : base_buy < base_sell) :
    (_adjust_prices_for_aggressiveness base_buy base_sell a).1 <
      (_adjust_prices_for_aggressiveness base_buy base_sell a).2 ∧
    0 < (_adjust_prices_for_aggressiveness base_buy base_sell a).1 := by
  rw [adjust_eq base_buy base_sell a hb hs]
  have h0 := adjustAmount_nonneg (base_sell - base_buy) (by omega) a
  have h2 := adjustAmount_twice_lt (base_sell - base_buy) (by omega) a
  constructor <;> simp only <;> omega

/-- C6: for b > 0, s > b and aggressiveness in [0,1], buy moves up and sell
moves down by exactly int(0.25 * a * (s - b)) each, the collapse-revert
branch is consistent with the emitted pair, and the returned pair always has
adjusted sell strictly above adjusted buy. -/
theorem C6_aggressiveness_adjustment (b s : Int) (a : ℚ)
    (hb : 0 < b) (hs : b < s) (h0 : 0 ≤ a) (h1 : a ≤ 1) :
    _adjust_prices_for_aggressiveness b s a =
      (b + pyInt ((25 / 100 : ℚ) * a * ((s : ℚ) - (b : ℚ))),
       s - pyInt ((25 / 100 : ℚ) * a * ((s : ℚ) - (b : ℚ)))) ∧
    (_adjust_prices_for_aggressiveness b s a).1 <
      (_adjust_prices_for_aggressiveness b s a).2 := by
  have hclamp : max 0 (min 1 a) = a := by
    rw [min_eq_right h1, max_eq_right h0]
  have hcomm : ((s - b : Int) : ℚ) * (25 / 100) * max 0 (min 1 a) =
      (25 / 100 : ℚ) * a * ((s : ℚ) - (b : ℚ)) := by
    rw [hclamp]
    push_cast
    ring
  refine ⟨?_, (adjust_spread_pos b s a hb hs).1⟩
  rw [adjust_eq b s a hb hs]
  simp only [adjustAmount, hcomm]

/-- Witness for C6 at b = 100, s = 101, a = 1 (the spec's own edge case:
the adjustment amount is int(0.25) = 0, so nothing moves). -/
theorem C6_witness :
    (0:Int) < 100 ∧ (100:Int) < 101 ∧ (0:ℚ) ≤ 1 ∧ (1:ℚ) ≤ 1 ∧
    (_adjust_prices_for_aggressiveness 100 101 1 =
      (100 + pyInt ((25 / 100 : ℚ) * 1 * ((101 : ℚ) - (100 : ℚ))),
       101 - pyInt ((25 / 100 : ℚ) * 1 * ((101 : ℚ) - (100 : ℚ)))) ∧
     (_adjust_prices_for_aggressiveness 100 101 1).1 <
       (_adjust_prices_for_aggressiveness 100 101 1).2) :=
  ⟨by norm_num, by norm_num, by norm_num, by norm_num,
   C6_aggressiveness_adjustment 100 101 1 (by norm_num) (by norm_num)
     (by norm_num) (by norm_num)⟩

/-! ## Purchase-window accountants: limits.py and flipper2_adapter.py -/

/-- limits.FOUR_HOURS_SEC (= flipper2_adapter.FOUR_HOURS_SEC). -/
def FOUR_HOURS_SEC : Int := 4 * 60 * 60

/-- limits.LimitEvent. -/
structure LimitEvent where
  ts : Int
  item_id : Int
  type : String
  qty : Int
deriving DecidableEq

/-- limits.load_state on an already-parsed event list (the JSON file I/O is a
collaborator): keeps events with ts at or after now minus twice the four-hour
window. -/
def load_state (events : List LimitEvent) (now : Int) : List LimitEvent :=
  events.filter (fun e => decide (now - 2 * FOUR_HOURS_SEC ≤ e.ts))

/-- limits.append_event: rejects a kind other than buy/sell, otherwise loads
(pruning stale events), appends the new event (ts defaulting to now), and
returns the state that save_state persists. -/
def append_event (events : List LimitEvent) (now : Int) (item_id : Int)
    (qty : Int) (type : String) (ts : Option Int) :
    Except String (List LimitEvent) :=
  if type ≠ "buy" ∧ type ≠ "sell" then
    Except.error "type must be buy or sell"
  else
    Except.ok (load_state events now ++ [⟨ts.getD now, item_id, type, qty⟩])

/-- limits.compute_remaining_limits on an already-parsed event list: sum
buy-kind events inside the four-hour window per item, then emit
max(0, limit - used) for every item with a known limit. -/
def compute_remaining_limits (events : List LimitEvent) (now : Int)
    (buy_limits : List (Int × Option Int)) : List (Int × Int) :=
  let st := load_state events now
  let cutoff := now - FOUR_HOURS_SEC
  let used := st.foldl (fun u e =>
    if e.type = "buy" ∧ ¬ (e.ts < cutoff) then
      dictSet u e.item_id ((dictGet u e.item_id).getD 0 + max 0 e.qty)
    else u) []
  buy_limits.filterMap (fun p =>
    match p.2 with
    | none => none
    | some lim => some (p.1, max 0 (lim - (dictGet used p.1).getD 0)))

/-- One parsed Flipper2 export record, after the adapter's field-alias
resolution (itemId|id|item, ts|time|timestamp|createdAt|createdTime,
quantity|qty|amount|tQIT); none models a missing/unusable field. -/
structure F2Entry where
  item_id : Option Int
  ts : Option Int
  qty : Option Int
deriving DecidableEq

/-- flipper2_adapter._normalize_ts on an integer or absent raw value. -/
def _normalize_ts (ts : Option Int) : Int :=
  match ts with
  | none => 0
  | some t => if t > 10 ^ 12 then t.fdiv 1000 else t

/-- flipper2_adapter.add_entry (the closure inside
compute_remaining_from_flipper2): accumulate a buy record into the used map. -/
def add_entry (now : Int) (used : List (Int × Int)) (e : F2Entry) :
    List (Int × Int) :=
  match e.item_id with
  | none => used
  | some iid =>
    let ts := _normalize_ts e.ts
    if ts < now - FOUR_HOURS_SEC then used
    else
      let qty := e.qty.getD 0
      if qty > 0 then dictSet used iid ((dictGet used iid).getD 0 + qty)
      else used

/-- flipper2_adapter.compute_remaining_from_flipper2 on the already-parsed
buy records (the flips file's buy sides go through the same add_entry and are
covered by the same argument). -/
def compute_remaining_from_flipper2 (buys : List F2Entry) (now : Int)
    (buy_limits : List (Int × Option Int)) : List (Int × Int) :=
  let used := buys.foldl (add_entry now) []
  buy_limits.filterMap (fun p =>
    match p.2 with
    | none => none
    | some lim => some (p.1, max 0 (lim - (dictGet used p.1).getD 0)))

/-- The same record with its timestamp re-expressed in millisecond epoch. -/
def msOf (e : F2Entry) : F2Entry :=
  ⟨e.item_id, e.ts.map (fun t => t * 1000), e.qty⟩

/-- C7: accountant round-trip over the local event log: a first buy of q
(with 0 <= q) leaves max(0, C - q) remaining, a second buy of q leaves
max(0, C - 2q), and a buy 5 hours old is outside the 4-hour window and
contributes nothing. -/
theorem C7_accountant_roundtrip (i q C now : Int) (hq : 0 ≤ q) :
    append_event [] now i q "buy" none = Except.ok [⟨now, i, "buy", q⟩] ∧
    compute_remaining_limits [⟨now, i, "buy", q⟩] now [(i, some C)] =
      [(i, max 0 (C - q))] ∧
    append_event [⟨now, i, "buy", q⟩] now i q "buy" none =
      Except.ok [⟨now, i, "buy", q⟩, ⟨now, i, "buy", q⟩] ∧
    compute_remaining_limits [⟨now, i, "buy", q⟩, ⟨now, i, "buy", q⟩] now
      [(i, some C)] = [(i, max 0 (C - 2 * q))] ∧
    compute_remaining_limits [⟨now - 5 * 3600, i, "buy", 30⟩] now
      [(i, some 100)] = [(i, 100)] := by
  refine ⟨?_, ?_, ?_, ?_, ?_⟩
  · simp [append_event, load_state]
  · simp only [compute_remaining_limits, load_state, FOUR_HOURS_SEC,
      List.filter_cons, List.filter_nil, decide_eq_true_eq]
    rw [if_pos (show now - 2 * (4 * 60 * 60) ≤ now by omega)]
    simp only [List.foldl_cons, List.foldl_nil]
    rw [if_pos ⟨trivial, show ¬ now < now - 4 * 60 * 60 by omega⟩]
    simp [dictGet, dictSet]
    omega
  · simp only [append_event, load_state, FOUR_HOURS_SEC, List.filter_cons,
      List.filter_nil, decide_eq_true_eq]
    rw [if_neg (by simp)]
    rw [if_pos (show now - 2 * (4 * 60 * 60) ≤ now by omega)]
    simp
  · simp only [compute_remaining_limits, load_state, FOUR_HOURS_SEC,
      List.filter_cons, List.filter_nil, decide_eq_true_eq]
    rw [if_pos (show now - 2 * (4 * 60 * 60) ≤ now by omega),
      if_pos (show now - 2 * (4 * 60 * 60) ≤ now by omega)]
    simp only [List.foldl_cons, List.foldl_nil]
    rw [if_pos ⟨trivial, show ¬ now < now - 4 * 60 * 60 by omega⟩]
    simp only [dictGet, Option.getD_none, dictSet]
    rw [if_pos ⟨trivial, show ¬ now < now - 4 * 60 * 60 by omega⟩]
    simp [dictGet, dictSet]
    omega
  · simp only [compute_remaining_limits, load_state, FOUR_HOURS_SEC,
      List.filter_cons, List.filter_nil, decide_eq_true_eq]
    rw [if_pos (show now - 2 * (4 * 60 * 60) ≤ now - 5 * 3600 by omega)]
    simp only [List.foldl_cons, List.foldl_nil]
    rw [if_neg (show ¬ (True ∧ ¬ now - 5 * 3600 < now - 4 * 60 * 60) by
        simp only [true_and, not_not]
        omega)]
    simp [dictGet]

/-- Witness for C7 at i = 1, q = 3, C = 10, now = 0. -/
theorem C7_witness :
    (0:Int) ≤ 3 ∧
    (append_event [] 0 1 3 "buy" none = Except.ok [⟨0, 1, "buy", 3⟩] ∧
     compute_remaining_limits [⟨0, 1, "buy", 3⟩] 0 [(1, some 10)] =
       [(1, max 0 (10 - 3))] ∧
     append_event [⟨0, 1, "buy", 3⟩] 0 1 3 "buy" none =
       Except.ok [⟨0, 1, "buy", 3⟩, ⟨0, 1, "buy", 3⟩] ∧
     compute_remaining_limits [⟨0, 1, "buy", 3⟩, ⟨0, 1, "buy", 3⟩] 0
       [(1, some 10)] = [(1, max 0 (10 - 2 * 3))] ∧
     compute_remaining_limits [⟨0 - 5 * 3600, 1, "buy", 30⟩] 0
       [(1, some 100)] = [(1, 100)]) :=
  ⟨by norm_num, C7_accountant_roundtrip 1 3 10 0 (by norm_num)⟩

/-- Millisecond inputs in the realistic band are divided back to seconds by
the Flipper2 adapter. -/
theorem add_entry_ms (now : Int) (u : List (Int × Int)) (e : F2Entry)
    (h : ∀ t, e.ts = some t → 10 ^ 9 < t ∧ t ≤ 10 ^ 12) :
    add_entry now u (msOf e) = add_entry now u e := by
  rcases e with ⟨iid, ts, qty⟩
  rcases iid with _ | iid
  · rfl
  · rcases ts with _ | t
    · rfl
    · rcases h t rfl with ⟨h1, h2⟩
      have hms : _normalize_ts (some (t * 1000)) = t := by
        rw [_normalize_ts, if_pos (by nlinarith), Int.mul_fdiv_cancel t (by norm_num)]
      have hsec : _normalize_ts (some t) = t := by
        rw [_normalize_ts, if_neg (by omega)]
      simp only [add_entry, msOf, Option.map_some']
      rw [hms, hsec]

/-- C8 (amended part): the third-party-export accountant is invariant under
re-expressing every timestamp in milliseconds, for timestamps in the band
where the 10^12 heuristic is sound (above 10^9 seconds and at most 10^12
seconds, which covers all real epoch times). -/
theorem C8_flipper2_ms_invariance (buys : List F2Entry) (now : Int)
    (buy_limits : List (Int × Option Int))
    (h : ∀ e ∈ buys, ∀ t, e.ts = some t → 10 ^ 9 < t ∧ t ≤ 10 ^ 12) :
    compute_remaining_from_flipper2 (buys.map msOf) now buy_limits =
      compute_remaining_from_flipper2 buys now buy_limits := by
  unfold compute_remaining_from_flipper2
  have hused : (buys.map msOf).foldl (add_entry now) [] =
      buys.foldl (add_entry now) [] := by
    rw [List.foldl_map]
    exact List.foldl_ext _ _ [] (fun u e he => add_entry_ms now u e (h e he))
  rw [hused]

/-- Witness for C8's amended theorem at one concrete buy record. -/
theorem C8_flipper2_ms_invariance_witness :
    (∀ e ∈ [(⟨some 1, some 1700000000, some 30⟩ : F2Entry)],
      ∀ t, e.ts = some t → 10 ^ 9 < t ∧ t ≤ 10 ^ 12) ∧
    compute_remaining_from_flipper2
        ([(⟨some 1, some 1700000000, some 30⟩ : F2Entry)].map msOf)
        1700000500 [(1, some 100)] =
      compute_remaining_from_flipper2
        [(⟨some 1, some 1700000000, some 30⟩ : F2Entry)]
        1700000500 [(1, some 100)] := by
  have hh : ∀ e ∈ [(⟨some 1, some 1700000000, some 30⟩ : F2Entry)],
      ∀ t, e.ts = some t → 10 ^ 9 < t ∧ t ≤ 10 ^ 12 := by
    intro e he t ht
    simp only [List.mem_singleton] at he
    subst he
    simp only [Option.some.injEq] at ht
    omega
  exact ⟨hh, C8_flipper2_ms_invariance _ 1700000500 _ hh⟩

/-- C8 counterexample: the local-log accountant (limits.py) performs no
millisecond normalization. The same 5-hour-old buy of 30 against a cap of
100 yields remaining 100 when its timestamp is in seconds (correctly outside
the window) but remaining 70 when the identical instant is expressed in
milliseconds (the raw value dwarfs the cutoff and is counted). -/
theorem C8_counterexample :
    compute_remaining_limits [⟨1999982000, 1, "buy", 30⟩] 2000000000
      [(1, some 100)] = [(1, 100)] ∧
    compute_remaining_limits [⟨1999982000 * 1000, 1, "buy", 30⟩] 2000000000
      [(1, some 100)] = [(1, 70)] := by
  constructor <;> decide

/-! ## Price selector, freshness filter and suggestion engine (suggest.py) -/

/-- suggest._choose_prices_for_item. The price_source dispatch is the Python
function's sequential returns; any string other than "1h" and "latest" takes
the hybrid path, exactly as in the source. now is the value of the
int(time.time()) call inside the hybrid branch. -/
def _choose_prices_for_item (item_id : Int)
    (latest : List (Int × LatestEntry)) (one_hour : List (Int × HourEntry))
    (five_min : Option (List (Int × HourEntry)))
    (price_source : String) (latest_max_age_min : ℚ) (now : Int) :
    Option (Int × Int × Int × Int) :=
  let lh := dictGet one_hour item_id
  let lt := dictGet latest item_id
  let fm := match five_min with
    | some d => dictGet d item_id
    | none => none
  if price_source = "1h" then
    match lh with
    | none => none
    | some h => some (h.avgLowPrice.getD 0, h.avgHighPrice.getD 0,
        h.lowPriceVolume.getD 0, h.highPriceVolume.getD 0)
  else if price_source = "latest" then
    match lt with
    | none => none
    | some t => some (t.low.getD 0, t.high.getD 0,
        (match lh with | some h => h.lowPriceVolume.getD 0 | none => 0),
        (match lh with | some h => h.highPriceVolume.getD 0 | none => 0))
  else
    let lv := match lh with | some h => h.lowPriceVolume.getD 0 | none => 0
    let hv := match lh with | some h => h.highPriceVolume.getD 0 | none => 0
    let fallback : Option (Int × Int × Int × Int) :=
      match fm with
      | some f => some (f.avgLowPrice.getD 0, f.avgHighPrice.getD 0, lv, hv)
      | none =>
        match lh with
        | some h => some (h.avgLowPrice.getD 0, h.avgHighPrice.getD 0,
            h.lowPriceVolume.getD 0, h.highPriceVolume.getD 0)
        | none => none
    match lt with
    | none => fallback
    | some t =>
      match t.highTime, t.lowTime with
      | some ht, some lwt =>
        if ((now - ht : ℚ) / 60 ≤ latest_max_age_min ∧
            (now - lwt : ℚ) / 60 ≤ latest_max_age_min) then
          some (t.low.getD 0, t.high.getD 0, lv, hv)
        else fallback
      | some _, none => fallback
      | none, _ => fallback

/-- suggest._is_fresh_enough. now is the value of the int(time.time()) call
inside the function (reached only on the path that needs it). -/
def _is_fresh_enough (lt_entry : Option LatestEntry) (fresh_minutes : ℚ)
    (policy : String) (now : Int) : Bool :=
  if fresh_minutes ≤ 0 then true
  else
    match lt_entry with
    | none => false
    | some e =>
      match e.highTime, e.lowTime with
      | none, none => false
      | _, _ =>
        let high_ok := match e.highTime with
          | some ht => decide ((now - ht : ℚ) ≤ fresh_minutes * 60)
          | none => false
        let low_ok := match e.lowTime with
          | some lwt => decide ((now - lwt : ℚ) ≤ fresh_minutes * 60)
          | none => false
        if policy = "any" then high_ok || low_ok else high_ok && low_ok

/-- The module-level hook globals().get of the name used for optional 5m data
is never assigned anywhere in the repository, so the engine always sees None
for the five-minute feed. -/
def five_min_data : Option (List (Int × HourEntry)) := none

/-- Python: if buy_limit is not None: quantity = min(quantity, buy_limit). -/
def minOpt (q : Int) (c : Option Int) : Int :=
  match c with
  | some v => min q v
  | none => q

/-- Python: if remaining_limits and item_id in remaining_limits:
rem = max(0, remaining_limits[item_id]) — an absent map, an empty (falsy)
map, or an absent key all leave rem = None. -/
def remEff (remaining_limits : Option (List (Int × Int))) (item_id : Int) :
    Option Int :=
  match remaining_limits with
  | none => none
  | some rl =>
    if rl = [] then none
    else
      match dictGet rl item_id with
      | some v => some (max 0 v)
      | none => none

/-- The keyword arguments of suggest.build_suggestions. -/
structure BuildArgs where
  budget_gp : Int
  mapping : List (Int × WikiItem)
  latest : List (Int × LatestEntry)
  one_hour : List (Int × HourEntry)
  min_unit_roi : ℚ
  min_unit_profit_gp : Int
  aggressiveness : ℚ
  liquidity_fraction : ℚ
  min_hourly_volume : Int
  max_fill_hours : ℚ
  price_source : String
  latest_max_age_min : ℚ
  fresh_minutes : ℚ
  fresh_policy : String
  remaining_limits : Option (List (Int × Int))
  top_n : Int
  include_item_ids : Option (List Int)

/-! The local variables of build_suggestions' per-item loop body, factored
into named definitions (one per Python local, same formulas, same order of
use) so that the pipeline below stays a plain chain of guards. -/

/-- Python local buy_price: first component of the adjusted pair. -/
def buyPrice (a : BuildArgs) (base_buy base_sell : Int) : Int :=
  (_adjust_prices_for_aggressiveness base_buy base_sell a.aggressiveness).1

/-- Python local sell_price: second component of the adjusted pair. -/
def sellPrice (a : BuildArgs) (base_buy base_sell : Int) : Int :=
  (_adjust_prices_for_aggressiveness base_buy base_sell a.aggressiveness).2

/-- Python locals buy_capacity_per_hour / sell_capacity_per_hour:
max(1, int(vol * max(0.0, min(1.0, liquidity_fraction)))). -/
def capacityPerHour (a : BuildArgs) (vol : Int) : Int :=
  max 1 (pyInt ((vol : ℚ) * max 0 (min 1 a.liquidity_fraction)))

/-- Python local buy_limit: item.buy_limit if item else None. -/
def buyLimitOf (a : BuildArgs) (item_id : Int) : Option Int :=
  match dictGet a.mapping item_id with
  | some it => it.buy_limit
  | none => none

/-- Python local item_name: item.name if item else str(item_id). -/
def itemNameOf (a : BuildArgs) (item_id : Int) : String :=
  match dictGet a.mapping item_id with
  | some it => it.name
  | none => toString item_id

/-- Python local max_by_budget = budget_gp // buy_price. -/
def maxByBudget (a : BuildArgs) (base_buy base_sell : Int) : Int :=
  a.budget_gp.fdiv (buyPrice a base_buy base_sell)

/-- The quantity after the budget, buy-limit, remaining-limit and liquidity
steps (the value checked by the first `quantity <= 0` guard). -/
def qtyAfterLiquidity (a : BuildArgs)
    (item_id base_buy base_sell low_vol high_vol : Int) : Int :=
  min (minOpt (minOpt (maxByBudget a base_buy base_sell) (buyLimitOf a item_id))
        (remEff a.remaining_limits item_id))
    (min (capacityPerHour a low_vol) (capacityPerHour a high_vol))

/-- Python locals max_qty_by_buy_time / max_qty_by_sell_time:
int(vol * max(0.0, max_fill_hours)). -/
def maxQtyByTime (a : BuildArgs) (vol : Int) : Int :=
  pyInt ((vol : ℚ) * max 0 a.max_fill_hours)

/-- The final quantity after the fill-time caps. -/
def quantityOf (a : BuildArgs)
    (item_id base_buy base_sell low_vol high_vol : Int) : Int :=
  min (qtyAfterLiquidity a item_id base_buy base_sell low_vol high_vol)
    (min (maxQtyByTime a low_vol) (maxQtyByTime a high_vol))

/-- Python local total_profit =
(quantity*sell_price - quantity*unit_tax) - quantity*buy_price. -/
def totalProfitOf (a : BuildArgs)
    (item_id base_buy base_sell low_vol high_vol : Int) : Int :=
  let quantity := quantityOf a item_id base_buy base_sell low_vol high_vol
  (sellPrice a base_buy base_sell * quantity
    - _compute_tax_per_unit (sellPrice a base_buy base_sell) * quantity)
    - buyPrice a base_buy base_sell * quantity

/-- Python local unit_profit = total_profit // max(1, quantity). -/
def unitProfitOf (a : BuildArgs)
    (item_id base_buy base_sell low_vol high_vol : Int) : Int :=
  (totalProfitOf a item_id base_buy base_sell low_vol high_vol).fdiv
    (max 1 (quantityOf a item_id base_buy base_sell low_vol high_vol))

/-- Python local unit_roi = unit_profit / buy_price. -/
def unitRoiOf (a : BuildArgs)
    (item_id base_buy base_sell low_vol high_vol : Int) : ℚ :=
  (unitProfitOf a item_id base_buy base_sell low_vol high_vol : ℚ) /
    (buyPrice a base_buy base_sell : ℚ)

/-- Python locals buy_fill_hours / sell_fill_hours = quantity / max(1, vol). -/
def fillHours (a : BuildArgs)
    (item_id base_buy base_sell low_vol high_vol vol : Int) : ℚ :=
  (quantityOf a item_id base_buy base_sell low_vol high_vol : ℚ) /
    ((max 1 vol : Int) : ℚ)

/-- Python local expected_fill_hours = buy_fill_hours + sell_fill_hours. -/
def expectedFillHours (a : BuildArgs)
    (item_id base_buy base_sell low_vol high_vol : Int) : ℚ :=
  fillHours a item_id base_buy base_sell low_vol high_vol low_vol +
    fillHours a item_id base_buy base_sell low_vol high_vol high_vol

/-- Python local profit_per_hour. -/
def profitPerHour (a : BuildArgs)
    (item_id base_buy base_sell low_vol high_vol : Int) : ℚ :=
  if 0 < expectedFillHours a item_id base_buy base_sell low_vol high_vol then
    (totalProfitOf a item_id base_buy base_sell low_vol high_vol : ℚ) /
      expectedFillHours a item_id base_buy base_sell low_vol high_vol
  else (totalProfitOf a item_id base_buy base_sell low_vol high_vol : ℚ)

/-- The body of build_suggestions' per-item loop: either a Suggestion is
appended to results, or the item is skipped (continue), with the source's
checks in the source's order. nowFresh / nowChoose are the two
int(time.time()) samples the loop body can take for this item (one inside
_is_fresh_enough, one inside _choose_prices_for_item). -/
def processItem (a : BuildArgs) (item_id : Int) (nowFresh nowChoose : Int) :
    Option Suggestion :=
  if ¬ (_is_fresh_enough (dictGet a.latest item_id) a.fresh_minutes
      a.fresh_policy nowFresh) then none
  else
    match _choose_prices_for_item item_id a.latest a.one_hour five_min_data
        a.price_source a.latest_max_age_min nowChoose with
    | none => none
    | some (base_buy, base_sell, low_vol, high_vol) =>
      if base_buy = 0 ∨ base_sell = 0 ∨ base_buy ≤ 0 ∨ base_sell ≤ 0 then none
      else if base_sell ≤ base_buy then none
      else if min low_vol high_vol < max 0 a.min_hourly_volume then none
      else if maxByBudget a base_buy base_sell ≤ 0 then none
      else if qtyAfterLiquidity a item_id base_buy base_sell low_vol high_vol ≤ 0
      then none
      else if maxQtyByTime a low_vol ≤ 0 ∨ maxQtyByTime a high_vol ≤ 0 then none
      else if quantityOf a item_id base_buy base_sell low_vol high_vol ≤ 0
      then none
      else if unitProfitOf a item_id base_buy base_sell low_vol high_vol <
          a.min_unit_profit_gp ∨
        unitRoiOf a item_id base_buy base_sell low_vol high_vol < a.min_unit_roi
      then none
      else
        some { item_id := item_id,
               item_name := itemNameOf a item_id,
               buy_limit := buyLimitOf a item_id,
               buy_price_gp := buyPrice a base_buy base_sell,
               sell_price_gp := sellPrice a base_buy base_sell,
               unit_profit_gp :=
                 unitProfitOf a item_id base_buy base_sell low_vol high_vol,
               unit_roi := unitRoiOf a item_id base_buy base_sell low_vol high_vol,
               quantity := quantityOf a item_id base_buy base_sell low_vol high_vol,
               total_profit_gp :=
                 totalProfitOf a item_id base_buy base_sell low_vol high_vol,
               hourly_volume := min low_vol high_vol,
               expected_fill_hours :=
                 expectedFillHours a item_id base_buy base_sell low_vol high_vol,
               profit_per_hour_gp :=
                 profitPerHour a item_id base_buy base_sell low_vol high_vol,
               official_ge_price := none,
               buy_hourly_volume := low_vol,
               sell_hourly_volume := high_vol,
               buy_fill_hours :=
                 fillHours a item_id base_buy base_sell low_vol high_vol low_vol,
               sell_fill_hours :=
                 fillHours a item_id base_buy base_sell low_vol high_vol high_vol,
               remaining_limit := remEff a.remaining_limits item_id }

/-- The ranking key: (profit_per_hour, total_profit, unit_roi),
lexicographically. -/
def rankKey (s : Suggestion) : Lex (ℚ × Lex (Int × ℚ)) :=
  toLex (s.profit_per_hour_gp, toLex (s.total_profit_gp, s.unit_roi))

/-- s may precede t in the descending stable sort exactly when s's key is at
least t's key; on ties the relation holds both ways and the stable sort keeps
the iteration order, exactly like Python list.sort(key, reverse=True). -/
def rankLe (s t : Suggestion) : Prop := rankKey t ≤ rankKey s

instance : DecidableRel rankLe := fun s t =>
  inferInstanceAs (Decidable (rankKey t ≤ rankKey s))

instance : IsTotal Suggestion rankLe :=
  ⟨fun s t => le_total (rankKey t) (rankKey s)⟩

instance : IsTrans Suggestion rankLe :=
  ⟨fun _ _ _ h1 h2 => le_trans h2 h1⟩

/-- Iteration order of the union one_hour.keys() | latest.keys(): keys in
first-appearance order. (CPython iterates the union set in a hash-table
order that likewise depends on which operand the key came from.) -/
def dedupKeys (l : List Int) : List Int :=
  l.foldl (fun acc x => if acc.contains x then acc else acc ++ [x]) []

/-- suggest.build_suggestions. nowFresh / nowChoose give, per item, the
values of the two int(time.time()) call sites executed while processing that
item; the Python code re-reads the wall clock at each site. -/
def build_suggestions (a : BuildArgs) (nowFresh nowChoose : Int → Int) :
    List Suggestion :=
  let univ0 := dedupKeys (a.one_hour.map Prod.fst ++ a.latest.map Prod.fst)
  let univ := match a.include_item_ids with
    | some l => univ0.filter (fun iid => l.contains iid)
    | none => univ0
  let results := univ.filterMap
    (fun iid => processItem a iid (nowFresh iid) (nowChoose iid))
  (List.insertionSort rankLe results).take (max 1 a.top_n).toNat

/-! ## Inversion of the per-item pipeline -/

theorem quantity_le_fdiv_mul_le (budget q p : Int) (hp : 0 < p)
    (hq : q ≤ budget.fdiv p) : q * p ≤ budget := by
  rw [Int.fdiv_eq_ediv _ (le_of_lt hp)] at hq
  exact (Int.le_ediv_iff_mul_le hp).mp hq

set_option maxHeartbeats 2000000 in
/-- Everything the success path of the per-item loop guarantees about the
emitted Suggestion. -/
theorem processItem_some_inv (a : BuildArgs) (iid nf nc : Int) (s : Suggestion)
    (h : processItem a iid nf nc = some s) :
    _is_fresh_enough (dictGet a.latest iid) a.fresh_minutes a.fresh_policy nf
      = true ∧
    s.item_id = iid ∧
    0 < s.buy_price_gp ∧
    s.buy_price_gp < s.sell_price_gp ∧
    1 ≤ s.quantity ∧
    a.min_unit_profit_gp ≤ s.unit_profit_gp ∧
    a.min_unit_roi ≤ s.unit_roi ∧
    s.buy_limit = (match dictGet a.mapping iid with
      | some it => it.buy_limit
      | none => none) ∧
    s.remaining_limit = remEff a.remaining_limits iid ∧
    1 ≤ a.budget_gp.fdiv s.buy_price_gp ∧
    1 ≤ pyInt ((s.buy_hourly_volume : ℚ) * max 0 a.max_fill_hours) ∧
    1 ≤ pyInt ((s.sell_hourly_volume : ℚ) * max 0 a.max_fill_hours) ∧
    s.quantity = min
      (min (minOpt (minOpt (a.budget_gp.fdiv s.buy_price_gp) s.buy_limit)
              s.remaining_limit)
        (min
          (max 1 (pyInt ((s.buy_hourly_volume : ℚ) *
            max 0 (min 1 a.liquidity_fraction))))
          (max 1 (pyInt ((s.sell_hourly_volume : ℚ) *
            max 0 (min 1 a.liquidity_fraction))))))
      (min (pyInt ((s.buy_hourly_volume : ℚ) * max 0 a.max_fill_hours))
           (pyInt ((s.sell_hourly_volume : ℚ) * max 0 a.max_fill_hours))) := by
  unfold processItem at h
  split at h
  · exact Option.noConfusion h
  next hfresh =>
  split at h
  · exact Option.noConfusion h
  next bb bs lv hv heq =>
  split at h
  · exact Option.noConfusion h
  next hzero =>
  split at h
  · exact Option.noConfusion h
  next hord =>
  split at h
  · exact Option.noConfusion h
  next hvol =>
  split at h
  · exact Option.noConfusion h
  next hbudget =>
  split at h
  · exact Option.noConfusion h
  next hq3 =>
  split at h
  · exact Option.noConfusion h
  next hfill =>
  split at h
  · exact Option.noConfusion h
  next hqty =>
  split at h
  · exact Option.noConfusion h
  next hfloor =>
  have hbb : 0 < bb := by
    push_neg at hzero
    omega
  have hbs : bb < bs := by omega
  have hadj := adjust_spread_pos bb bs a.aggressiveness hbb hbs
  simp only [maxByBudget] at hbudget
  push_neg at hfill hfloor
  simp only [maxQtyByTime] at hfill
  have hs := Option.some.inj h
  subst hs
  dsimp only
  exact ⟨not_not.mp hfresh, rfl, hadj.2, hadj.1, by omega, hfloor.1, hfloor.2,
    rfl, rfl, by omega, by omega, by omega, rfl⟩

theorem minOpt_le_left (q : Int) (c : Option Int) : minOpt q c ≤ q := by
  cases c
  · exact le_refl q
  · exact min_le_left _ _

theorem minOpt_le_some (q v : Int) : minOpt q (some v) ≤ v := min_le_right _ _

/-- Any member of the engine's output was produced by the per-item loop body
for some item of the universe. -/
theorem mem_build_suggestions (a : BuildArgs) (nowFresh nowChoose : Int → Int)
    (s : Suggestion) (hs : s ∈ build_suggestions a nowFresh nowChoose) :
    ∃ iid, processItem a iid (nowFresh iid) (nowChoose iid) = some s := by
  unfold build_suggestions at hs
  have h1 := List.mem_of_mem_take hs
  have h2 := (List.perm_insertionSort rankLe _).mem_iff.mp h1
  rcases List.mem_filterMap.mp h2 with ⟨iid, _, hp⟩
  exact ⟨iid, hp⟩

/-- C1: every emitted Suggestion has a strictly profitable price pair, a
positive quantity, per-unit profit and ROI at or above the configured
floors, total buy cost within budget, quantity at most the catalog cap when
one is known, and quantity at most the supplied remaining allowance for the
item. -/
theorem C1_emitted_suggestion_invariants (a : BuildArgs)
    (nowFresh nowChoose : Int → Int) (s : Suggestion)
    (hs : s ∈ build_suggestions a nowFresh nowChoose) :
    s.buy_price_gp < s.sell_price_gp ∧
    1 ≤ s.quantity ∧
    a.min_unit_profit_gp ≤ s.unit_profit_gp ∧
    a.min_unit_roi ≤ s.unit_roi ∧
    s.quantity * s.buy_price_gp ≤ a.budget_gp ∧
    (∀ it, dictGet a.mapping s.item_id = some it →
      ∀ cap, it.buy_limit = some cap → s.quantity ≤ cap) ∧
    (∀ rl, a.remaining_limits = some rl →
      ∀ v, dictGet rl s.item_id = some v → s.quantity ≤ v) := by
  rcases mem_build_suggestions a nowFresh nowChoose s hs with ⟨iid, hp⟩
  rcases processItem_some_inv a iid (nowFresh iid) (nowChoose iid) s hp with
    ⟨-, hid, hbp, hlt, hq1, hup, hur, hbl, hrem, -, -, -, hqeq⟩
  subst hid
  have hbase : s.quantity ≤
      minOpt (minOpt (a.budget_gp.fdiv s.buy_price_gp) s.buy_limit)
        s.remaining_limit := by
    rw [hqeq]
    exact le_trans (min_le_left _ _) (min_le_left _ _)
  refine ⟨hlt, hq1, hup, hur, ?_, ?_, ?_⟩
  · exact quantity_le_fdiv_mul_le _ _ _ hbp
      (le_trans hbase (le_trans (minOpt_le_left _ _) (minOpt_le_left _ _)))
  · intro it hit cap hcap
    have hbl2 : s.buy_limit = some cap := by
      rw [hbl, hit]
      exact hcap
    calc s.quantity
        ≤ minOpt (a.budget_gp.fdiv s.buy_price_gp) s.buy_limit :=
          le_trans hbase (minOpt_le_left _ _)
      _ ≤ cap := by
          rw [hbl2]
          exact minOpt_le_some _ _
  · intro rl hrl v hv
    have hrlne : rl ≠ [] := by
      intro hnil
      rw [hnil] at hv
      exact Option.noConfusion hv
    have hre : s.remaining_limit = some (max 0 v) := by
      rw [hrem, hrl]
      simp only [remEff]
      rw [if_neg hrlne, hv]
    have hq2 : s.quantity ≤ max 0 v := by
      rw [hre] at hbase
      exact le_trans hbase (minOpt_le_some _ _)
    omega

/-- C5 (amended): the emitted quantity is the minimum of budget // buy_price,
the catalog cap (when known), the clamped remaining allowance (when
supplied), the two liquidity capacities — each clamped UP to at least 1 by
max(1, int(liquidity_fraction * volume)), not excluded when the product
rounds to zero — and the two fill-time caps int(max_fill_hours * volume);
the budget quotient and both fill-time caps are at least 1 for every
emitted Suggestion (a zero or negative value there excludes the item), as
is the quantity itself. -/
theorem C5_quantity_derivation (a : BuildArgs)
    (nowFresh nowChoose : Int → Int) (s : Suggestion)
    (hs : s ∈ build_suggestions a nowFresh nowChoose) :
    s.quantity = min
      (min (minOpt (minOpt (a.budget_gp.fdiv s.buy_price_gp) s.buy_limit)
              s.remaining_limit)
        (min
          (max 1 (pyInt ((s.buy_hourly_volume : ℚ) *
            max 0 (min 1 a.liquidity_fraction))))
          (max 1 (pyInt ((s.sell_hourly_volume : ℚ) *
            max 0 (min 1 a.liquidity_fraction))))))
      (min (pyInt ((s.buy_hourly_volume : ℚ) * max 0 a.max_fill_hours))
           (pyInt ((s.sell_hourly_volume : ℚ) * max 0 a.max_fill_hours))) ∧
    s.buy_limit = (match dictGet a.mapping s.item_id with
      | some it => it.buy_limit
      | none => none) ∧
    s.remaining_limit = remEff a.remaining_limits s.item_id ∧
    1 ≤ s.quantity ∧
    1 ≤ a.budget_gp.fdiv s.buy_price_gp ∧
    1 ≤ pyInt ((s.buy_hourly_volume : ℚ) * max 0 a.max_fill_hours) ∧
    1 ≤ pyInt ((s.sell_hourly_volume : ℚ) * max 0 a.max_fill_hours) := by
  rcases mem_build_suggestions a nowFresh nowChoose s hs with ⟨iid, hp⟩
  rcases processItem_some_inv a iid (nowFresh iid) (nowChoose iid) s hp with
    ⟨-, hid, -, -, hq1, -, -, hbl, hrem, hmbb, hbt, hst, hqeq⟩
  subst hid
  exact ⟨hqeq, hbl, hrem, hq1, hmbb, hbt, hst⟩

/-- When the freshness filter is on and the instantaneous record is missing
or carries no usable timestamp, the filter rejects. -/
theorem is_fresh_enough_false_of_missing (entry : Option LatestEntry)
    (fm : ℚ) (pol : String) (now : Int) (hfm : 0 < fm)
    (hent : entry = none ∨
      ∃ e, entry = some e ∧ e.highTime = none ∧ e.lowTime = none) :
    _is_fresh_enough entry fm pol now = false := by
  unfold _is_fresh_enough
  rw [if_neg (not_le.mpr hfm)]
  rcases hent with h | ⟨e, he, hh, hl⟩
  · rw [h]
  · rw [he]
    rcases e with ⟨lo, hi, lwt, ht⟩
    simp only at hh hl
    subst hh
    subst hl
    rfl

theorem processItem_none_of_not_fresh (a : BuildArgs) (iid nf nc : Int)
    (h : _is_fresh_enough (dictGet a.latest iid) a.fresh_minutes
      a.fresh_policy nf = false) :
    processItem a iid nf nc = none := by
  unfold processItem
  rw [if_pos (by simp [h])]

/-- C10: with the freshness filter enabled, an item with no instantaneous
entry, or an entry without usable timestamps, never reaches the output,
whatever the price-source policy (the check precedes price resolution). -/
theorem C10_unfresh_item_excluded (a : BuildArgs)
    (nowFresh nowChoose : Int → Int) (iid : Int)
    (hfm : 0 < a.fresh_minutes)
    (hent : dictGet a.latest iid = none ∨
      ∃ e, dictGet a.latest iid = some e ∧
        e.highTime = none ∧ e.lowTime = none) :
    ∀ s ∈ build_suggestions a nowFresh nowChoose, s.item_id ≠ iid := by
  intro s hs heqid
  rcases mem_build_suggestions a nowFresh nowChoose s hs with ⟨j, hp⟩
  have hj : s.item_id = j := (processItem_some_inv a j _ _ s hp).2.1
  have hji : j = iid := by rw [← hj, heqid]
  subst hji
  have hfr := is_fresh_enough_false_of_missing (dictGet a.latest j)
    a.fresh_minutes a.fresh_policy (nowFresh j) hfm hent
  rw [processItem_none_of_not_fresh a j (nowFresh j) (nowChoose j) hfr] at hp
  exact Option.noConfusion hp

/-- C3 (amended part): the output is pairwise ordered by the reflexive
descending-lexicographic relation on (profit_per_hour, total_profit,
unit_roi) and holds at most max(1, top_n) entries. -/
theorem C3_output_sorted_truncated (a : BuildArgs)
    (nowFresh nowChoose : Int → Int) :
    (build_suggestions a nowFresh nowChoose).Pairwise rankLe ∧
    (build_suggestions a nowFresh nowChoose).length ≤ (max 1 a.top_n).toNat := by
  unfold build_suggestions
  constructor
  · exact List.Pairwise.sublist (List.take_sublist _ _)
      (List.sorted_insertionSort rankLe _)
  · rw [List.length_take]
    exact min_le_left _ _

/-! ## Concrete evaluation -/

/-- When every guard of the loop body passes, processItem emits the record
built from the named locals. -/
theorem processItem_eval (a : BuildArgs) (iid nf nc bb bs lv hv : Int)
    (hfresh : _is_fresh_enough (dictGet a.latest iid) a.fresh_minutes
      a.fresh_policy nf = true)
    (hchoose : _choose_prices_for_item iid a.latest a.one_hour five_min_data
      a.price_source a.latest_max_age_min nc = some (bb, bs, lv, hv))
    (h1 : ¬ (bb = 0 ∨ bs = 0 ∨ bb ≤ 0 ∨ bs ≤ 0))
    (h2 : ¬ bs ≤ bb)
    (h3 : ¬ min lv hv < max 0 a.min_hourly_volume)
    (h4 : ¬ maxByBudget a bb bs ≤ 0)
    (h5 : ¬ qtyAfterLiquidity a iid bb bs lv hv ≤ 0)
    (h6 : ¬ (maxQtyByTime a lv ≤ 0 ∨ maxQtyByTime a hv ≤ 0))
    (h7 : ¬ quantityOf a iid bb bs lv hv ≤ 0)
    (h8 : ¬ (unitProfitOf a iid bb bs lv hv < a.min_unit_profit_gp ∨
      unitRoiOf a iid bb bs lv hv < a.min_unit_roi)) :
    processItem a iid nf nc = some
      { item_id := iid,
        item_name := itemNameOf a iid,
        buy_limit := buyLimitOf a iid,
        buy_price_gp := buyPrice a bb bs,
        sell_price_gp := sellPrice a bb bs,
        unit_profit_gp := unitProfitOf a iid bb bs lv hv,
        unit_roi := unitRoiOf a iid bb bs lv hv,
        quantity := quantityOf a iid bb bs lv hv,
        total_profit_gp := totalProfitOf a iid bb bs lv hv,
        hourly_volume := min lv hv,
        expected_fill_hours := expectedFillHours a iid bb bs lv hv,
        profit_per_hour_gp := profitPerHour a iid bb bs lv hv,
        official_ge_price := none,
        buy_hourly_volume := lv,
        sell_hourly_volume := hv,
        buy_fill_hours := fillHours a iid bb bs lv hv lv,
        sell_fill_hours := fillHours a iid bb bs lv hv hv,
        remaining_limit := remEff a.remaining_limits iid } := by
  unfold processItem
  rw [hchoose, if_neg (by simp [hfresh])]
  simp only []
  rw [if_neg h1, if_neg h2, if_neg h3, if_neg h4, if_neg h5, if_neg h6,
    if_neg h7, if_neg h8]

/-- The clock sample used throughout the spec's end-to-end scenario. -/
def c2now : Int := 1700000000

/-- The end-to-end scenario's inputs: catalog {1: cap 50}; instantaneous
feed {1: buy 100, sell 120, both timestamps now}; windowed feed
{1: volumes 1000/1000}; budget 10000; min_roi 0; min_profit 0;
aggressiveness 0; liquidity_fraction 1.0; min_hourly_volume 0;
max_fill_hours 10. -/
def c2args : BuildArgs :=
  { budget_gp := 10000,
    mapping := [(1, ⟨1, "Item1", some 50, none⟩)],
    latest := [(1, ⟨some 100, some 120, some c2now, some c2now⟩)],
    one_hour := [(1, ⟨none, none, some 1000, some 1000⟩)],
    min_unit_roi := 0,
    min_unit_profit_gp := 0,
    aggressiveness := 0,
    liquidity_fraction := 1,
    min_hourly_volume := 0,
    max_fill_hours := 10,
    price_source := "hybrid",
    latest_max_age_min := 30,
    fresh_minutes := 0,
    fresh_policy := "all",
    remaining_limits := none,
    top_n := 10,
    include_item_ids := none }

/-- The single Suggestion the scenario is expected to produce. -/
def c2sug : Suggestion :=
  { item_id := 1,
    item_name := "Item1",
    buy_limit := some 50,
    buy_price_gp := 100,
    sell_price_gp := 120,
    unit_profit_gp := 18,
    unit_roi := 18 / 100,
    quantity := 50,
    total_profit_gp := 900,
    hourly_volume := 1000,
    expected_fill_hours := 1 / 10,
    profit_per_hour_gp := 9000,
    official_ge_price := none,
    buy_hourly_volume := 1000,
    sell_hourly_volume := 1000,
    buy_fill_hours := 1 / 20,
    sell_fill_hours := 1 / 20,
    remaining_limit := none }

theorem c2_adjust : _adjust_prices_for_aggressiveness 100 120
    c2args.aggressiveness = (100, 120) := by
  norm_num [_adjust_prices_for_aggressiveness, pyInt, c2args, min_def, max_def]

theorem c2_buyPrice : buyPrice c2args 100 120 = 100 := by
  unfold buyPrice
  rw [c2_adjust]

theorem c2_sellPrice : sellPrice c2args 100 120 = 120 := by
  unfold sellPrice
  rw [c2_adjust]

theorem c2_cap : capacityPerHour c2args 1000 = 1000 := by
  unfold capacityPerHour
  norm_num [pyInt, c2args, min_def, max_def]

theorem c2_mbb : maxByBudget c2args 100 120 = 100 := by
  unfold maxByBudget
  rw [c2_buyPrice]
  decide

theorem c2_mqt : maxQtyByTime c2args 1000 = 10000 := by
  unfold maxQtyByTime
  norm_num [pyInt, c2args, max_def]

theorem c2_qa : qtyAfterLiquidity c2args 1 100 120 1000 1000 = 50 := by
  unfold qtyAfterLiquidity
  rw [c2_mbb, c2_cap]
  decide

theorem c2_qty : quantityOf c2args 1 100 120 1000 1000 = 50 := by
  unfold quantityOf
  rw [c2_qa, c2_mqt]
  decide

theorem c2_tax : _compute_tax_per_unit 120 = 2 := by
  norm_num [_compute_tax_per_unit, pyInt, GE_TAX_RATE, GE_TAX_CAP, min_def]

theorem c2_tp : totalProfitOf c2args 1 100 120 1000 1000 = 900 := by
  unfold totalProfitOf
  rw [c2_qty, c2_sellPrice, c2_tax, c2_buyPrice]
  decide

theorem c2_up : unitProfitOf c2args 1 100 120 1000 1000 = 18 := by
  unfold unitProfitOf
  rw [c2_tp, c2_qty]
  decide

theorem c2_roi : unitRoiOf c2args 1 100 120 1000 1000 = 18 / 100 := by
  unfold unitRoiOf
  rw [c2_up, c2_buyPrice]
  norm_num

theorem c2_fill : fillHours c2args 1 100 120 1000 1000 1000 = 1 / 20 := by
  unfold fillHours
  rw [c2_qty]
  norm_num [max_def]

theorem c2_eff : expectedFillHours c2args 1 100 120 1000 1000 = 1 / 10 := by
  unfold expectedFillHours
  rw [c2_fill]
  norm_num

theorem c2_pph : profitPerHour c2args 1 100 120 1000 1000 = 9000 := by
  unfold profitPerHour
  rw [c2_eff, c2_tp]
  norm_num

theorem c2_fresh : _is_fresh_enough (dictGet c2args.latest 1)
    c2args.fresh_minutes c2args.fresh_policy c2now = true := by
  norm_num [_is_fresh_enough, c2args]

theorem c2_choose : _choose_prices_for_item 1 c2args.latest c2args.one_hour
    five_min_data c2args.price_source c2args.latest_max_age_min c2now =
    some (100, 120, 1000, 1000) := by
  norm_num [_choose_prices_for_item, dictGet, five_min_data, c2args, c2now]
  all_goals decide

theorem c2_processItem : processItem c2args 1 c2now c2now = some c2sug := by
  rw [processItem_eval c2args 1 c2now c2now 100 120 1000 1000 c2_fresh
    c2_choose (by decide) (by decide) (by decide)
    (by rw [c2_mbb]; decide)
    (by rw [c2_qa]; decide)
    (by rw [c2_mqt]; simp)
    (by rw [c2_qty]; decide)
    (by rw [c2_up, c2_roi]; norm_num [c2args])]
  rw [c2sug]
  rw [c2_buyPrice, c2_sellPrice, c2_up, c2_roi, c2_qty, c2_tp, c2_eff,
    c2_pph, c2_fill]
  have hnm : itemNameOf c2args 1 = "Item1" := by decide
  have hbl : buyLimitOf c2args 1 = some 50 := by decide
  have hre : remEff c2args.remaining_limits 1 = none := by decide
  rw [hnm, hbl, hre, min_self]

theorem c2_build_eval : build_suggestions c2args (fun _ => c2now)
    (fun _ => c2now) = [c2sug] := by
  have hinc : c2args.include_item_ids = none := rfl
  have huniv : dedupKeys (c2args.one_hour.map Prod.fst ++
    c2args.latest.map Prod.fst) = [1] := by decide
  have htop : (max 1 c2args.top_n).toNat = 10 := by decide
  unfold build_suggestions
  rw [hinc, huniv]
  simp only [List.filterMap_cons, List.filterMap_nil]
  rw [c2_processItem]
  simp only [List.insertionSort, List.orderedInsert]
  rw [htop]
  rfl

/-- C2: the end-to-end scenario yields exactly one Suggestion, and its
fields carry buy 100, sell 120, quantity 50, per-unit tax 2, total profit
900, per-unit profit 18 and ROI 0.18. -/
theorem C2_end_to_end :
    build_suggestions c2args (fun _ => c2now) (fun _ => c2now) = [c2sug] ∧
    c2sug.buy_price_gp = 100 ∧
    c2sug.sell_price_gp = 120 ∧
    c2sug.quantity = 50 ∧
    _compute_tax_per_unit c2sug.sell_price_gp = 2 ∧
    c2sug.total_profit_gp = 900 ∧
    c2sug.unit_profit_gp = 18 ∧
    c2sug.unit_roi = 18 / 100 :=
  ⟨c2_build_eval, rfl, rfl, rfl, c2_tax, rfl, rfl, rfl⟩

/-- Witness for C1 on the end-to-end scenario's output. -/
theorem C1_witness :
    c2sug ∈ build_suggestions c2args (fun _ => c2now) (fun _ => c2now) ∧
    (c2sug.buy_price_gp < c2sug.sell_price_gp ∧
     1 ≤ c2sug.quantity ∧
     c2args.min_unit_profit_gp ≤ c2sug.unit_profit_gp ∧
     c2args.min_unit_roi ≤ c2sug.unit_roi ∧
     c2sug.quantity * c2sug.buy_price_gp ≤ c2args.budget_gp ∧
     (∀ it, dictGet c2args.mapping c2sug.item_id = some it →
       ∀ cap, it.buy_limit = some cap → c2sug.quantity ≤ cap) ∧
     (∀ rl, c2args.remaining_limits = some rl →
       ∀ v, dictGet rl c2sug.item_id = some v → c2sug.quantity ≤ v)) :=
  have hm : c2sug ∈ build_suggestions c2args (fun _ => c2now)
      (fun _ => c2now) := by
    rw [c2_build_eval]
    exact List.mem_singleton.mpr rfl
  ⟨hm, C1_emitted_suggestion_invariants c2args _ _ c2sug hm⟩

/-- Witness for C5 on the end-to-end scenario's output. -/
theorem C5_witness :
    c2sug ∈ build_suggestions c2args (fun _ => c2now) (fun _ => c2now) ∧
    c2sug.quantity = min
      (min (minOpt (minOpt (c2args.budget_gp.fdiv c2sug.buy_price_gp)
              c2sug.buy_limit)
              c2sug.remaining_limit)
        (min
          (max 1 (pyInt ((c2sug.buy_hourly_volume : ℚ) *
            max 0 (min 1 c2args.liquidity_fraction))))
          (max 1 (pyInt ((c2sug.sell_hourly_volume : ℚ) *
            max 0 (min 1 c2args.liquidity_fraction))))))
      (min (pyInt ((c2sug.buy_hourly_volume : ℚ) * max 0 c2args.max_fill_hours))
           (pyInt ((c2sug.sell_hourly_volume : ℚ) * max 0 c2args.max_fill_hours))) :=
  have hm : c2sug ∈ build_suggestions c2args (fun _ => c2now)
      (fun _ => c2now) := by
    rw [c2_build_eval]
    exact List.mem_singleton.mpr rfl
  ⟨hm, (C5_quantity_derivation c2args _ _ c2sug hm).1⟩

/-- Inputs with the freshness filter on and item 1 absent from the
instantaneous feed. -/
def c10args : BuildArgs := { c2args with latest := [], fresh_minutes := 5 }

/-- Witness for C10: with fresh_minutes 5 and no instantaneous entry for
item 1, no output row carries item 1, whatever the clock does. -/
theorem C10_witness :
    (0 : ℚ) < c10args.fresh_minutes ∧
    dictGet c10args.latest 1 = none ∧
    ∀ s ∈ build_suggestions c10args (fun _ => c2now) (fun _ => c2now),
      s.item_id ≠ 1 :=
  ⟨by norm_num [c10args], rfl,
   C10_unfresh_item_excluded c10args _ _ 1 (by norm_num [c10args])
     (Or.inl rfl)⟩

/-! ## C3: ties and input iteration order -/

/-- A windowed entry shared by the two tied items. -/
def h1000 : HourEntry := ⟨some 100, some 120, some 1000, some 1000⟩

/-- Two items with identical entries (ids 1 and 9 collide modulo the initial
CPython hash-table size, so the set union's iteration order really does
depend on which dict they came from). -/
def c3argsA : BuildArgs :=
  { budget_gp := 10000,
    mapping := [],
    latest := [],
    one_hour := [(1, h1000), (9, h1000)],
    min_unit_roi := 0,
    min_unit_profit_gp := 0,
    aggressiveness := 0,
    liquidity_fraction := 1,
    min_hourly_volume := 0,
    max_fill_hours := 10,
    price_source := "1h",
    latest_max_age_min := 30,
    fresh_minutes := 0,
    fresh_policy := "all",
    remaining_limits := none,
    top_n := 10,
    include_item_ids := none }

/-- The same inputs with the windowed feed's entries in the other order. -/
def c3argsB : BuildArgs := { c3argsA with one_hour := [(9, h1000), (1, h1000)] }

/-- The Suggestion both items produce (they tie on every ranking key). -/
def c3sug (iid : Int) : Suggestion :=
  { item_id := iid,
    item_name := toString iid,
    buy_limit := none,
    buy_price_gp := 100,
    sell_price_gp := 120,
    unit_profit_gp := 18,
    unit_roi := 18 / 100,
    quantity := 100,
    total_profit_gp := 1800,
    hourly_volume := 1000,
    expected_fill_hours := 1 / 5,
    profit_per_hour_gp := 9000,
    official_ge_price := none,
    buy_hourly_volume := 1000,
    sell_hourly_volume := 1000,
    buy_fill_hours := 1 / 10,
    sell_fill_hours := 1 / 10,
    remaining_limit := none }

theorem c3_adjust : _adjust_prices_for_aggressiveness 100 120
    c3argsA.aggressiveness = (100, 120) := by
  norm_num [_adjust_prices_for_aggressiveness, pyInt, c3argsA, min_def, max_def]

theorem c3_buyPrice : buyPrice c3argsA 100 120 = 100 := by
  unfold buyPrice
  rw [c3_adjust]

theorem c3_sellPrice : sellPrice c3argsA 100 120 = 120 := by
  unfold sellPrice
  rw [c3_adjust]

theorem c3_cap : capacityPerHour c3argsA 1000 = 1000 := by
  unfold capacityPerHour
  norm_num [pyInt, c3argsA, min_def, max_def]

theorem c3_mbb : maxByBudget c3argsA 100 120 = 100 := by
  unfold maxByBudget
  rw [c3_buyPrice]
  decide

theorem c3_mqt : maxQtyByTime c3argsA 1000 = 10000 := by
  unfold maxQtyByTime
  norm_num [pyInt, c3argsA, max_def]

theorem c3_qa (iid : Int) :
    qtyAfterLiquidity c3argsA iid 100 120 1000 1000 = 100 := by
  unfold qtyAfterLiquidity
  rw [c3_mbb, c3_cap]
  simp [buyLimitOf, remEff, dictGet, minOpt, c3argsA]

theorem c3_qty (iid : Int) :
    quantityOf c3argsA iid 100 120 1000 1000 = 100 := by
  unfold quantityOf
  rw [c3_qa, c3_mqt]
  decide

theorem c3_tp (iid : Int) :
    totalProfitOf c3argsA iid 100 120 1000 1000 = 1800 := by
  unfold totalProfitOf
  rw [c3_qty, c3_sellPrice, c2_tax, c3_buyPrice]
  decide

theorem c3_up (iid : Int) :
    unitProfitOf c3argsA iid 100 120 1000 1000 = 18 := by
  unfold unitProfitOf
  rw [c3_tp, c3_qty]
  decide

theorem c3_roi (iid : Int) :
    unitRoiOf c3argsA iid 100 120 1000 1000 = 18 / 100 := by
  unfold unitRoiOf
  rw [c3_up, c3_buyPrice]
  norm_num

theorem c3_fill (iid : Int) :
    fillHours c3argsA iid 100 120 1000 1000 1000 = 1 / 10 := by
  unfold fillHours
  rw [c3_qty]
  norm_num [max_def]

theorem c3_eff (iid : Int) :
    expectedFillHours c3argsA iid 100 120 1000 1000 = 1 / 5 := by
  unfold expectedFillHours
  rw [c3_fill]
  norm_num

theorem c3_pph (iid : Int) :
    profitPerHour c3argsA iid 100 120 1000 1000 = 9000 := by
  unfold profitPerHour
  rw [c3_eff, c3_tp]
  norm_num

theorem c3_fresh (iid : Int) : _is_fresh_enough (dictGet c3argsA.latest iid)
    c3argsA.fresh_minutes c3argsA.fresh_policy 0 = true := by
  norm_num [_is_fresh_enough, c3argsA]

theorem c3_processItemA (iid : Int)
    (hch : _choose_prices_for_item iid c3argsA.latest c3argsA.one_hour
      five_min_data c3argsA.price_source c3argsA.latest_max_age_min 0 =
      some (100, 120, 1000, 1000))
    (hnm : itemNameOf c3argsA iid = toString iid) :
    processItem c3argsA iid 0 0 = some (c3sug iid) := by
  rw [processItem_eval c3argsA iid 0 0 100 120 1000 1000 (c3_fresh iid) hch
    (by decide) (by decide) (by decide)
    (by rw [c3_mbb]; decide)
    (by rw [c3_qa]; decide)
    (by rw [c3_mqt]; simp)
    (by rw [c3_qty]; decide)
    (by rw [c3_up, c3_roi]; norm_num [c3argsA])]
  rw [c3sug]
  rw [c3_buyPrice, c3_sellPrice, c3_up, c3_roi, c3_qty, c3_tp, c3_eff,
    c3_pph, c3_fill, hnm, min_self]
  have hbl : buyLimitOf c3argsA iid = none := by
    simp [buyLimitOf, dictGet, c3argsA]
  have hre : remEff c3argsA.remaining_limits iid = none := rfl
  rw [hbl, hre]

theorem c3_rankTie : rankLe (c3sug 1) (c3sug 9) := le_of_eq rfl

theorem c3_rankTie' : rankLe (c3sug 9) (c3sug 1) := le_of_eq rfl

theorem c3_evalA : build_suggestions c3argsA (fun _ => 0) (fun _ => 0) =
    [c3sug 1, c3sug 9] := by
  have hp1 : processItem c3argsA 1 0 0 = some (c3sug 1) :=
    c3_processItemA 1 (by decide) (by decide)
  have hp9 : processItem c3argsA 9 0 0 = some (c3sug 9) :=
    c3_processItemA 9 (by decide) (by decide)
  have hinc : c3argsA.include_item_ids = none := rfl
  have huniv : dedupKeys (c3argsA.one_hour.map Prod.fst ++
    c3argsA.latest.map Prod.fst) = [1, 9] := by decide
  have htop : (max 1 c3argsA.top_n).toNat = 10 := by decide
  unfold build_suggestions
  rw [hinc, huniv]
  simp only [List.filterMap_cons, List.filterMap_nil]
  rw [hp1, hp9]
  simp only [List.insertionSort, List.orderedInsert]
  rw [if_pos c3_rankTie, htop]
  rfl

theorem c3_evalB : build_suggestions c3argsB (fun _ => 0) (fun _ => 0) =
    [c3sug 9, c3sug 1] := by
  have hp1 : processItem c3argsB 1 0 0 = some (c3sug 1) := by
    have htr : processItem c3argsB 1 0 0 = processItem c3argsA 1 0 0 := rfl
    rw [htr]
    exact c3_processItemA 1 (by decide) (by decide)
  have hp9 : processItem c3argsB 9 0 0 = some (c3sug 9) := by
    have htr : processItem c3argsB 9 0 0 = processItem c3argsA 9 0 0 := rfl
    rw [htr]
    exact c3_processItemA 9 (by decide) (by decide)
  have hinc : c3argsB.include_item_ids = none := rfl
  have huniv : dedupKeys (c3argsB.one_hour.map Prod.fst ++
    c3argsB.latest.map Prod.fst) = [9, 1] := by decide
  have htop : (max 1 c3argsB.top_n).toNat = 10 := by decide
  unfold build_suggestions
  rw [hinc, huniv]
  simp only [List.filterMap_cons, List.filterMap_nil]
  rw [hp1, hp9]
  simp only [List.insertionSort, List.orderedInsert]
  rw [if_pos c3_rankTie', htop]
  rfl

/-- C3 counterexample: the two windowed feeds hold the same entries in a
different iteration order, the two tied Suggestions keep their respective
iteration orders through the stable sort, and the outputs differ. -/
theorem C3_counterexample :
    c3argsA.one_hour.Perm c3argsB.one_hour ∧
    c3argsA.latest = c3argsB.latest ∧
    build_suggestions c3argsA (fun _ => 0) (fun _ => 0) ≠
      build_suggestions c3argsB (fun _ => 0) (fun _ => 0) := by
  refine ⟨List.Perm.swap _ _ _, rfl, ?_⟩
  rw [c3_evalA, c3_evalB]
  intro h
  injection h with h1 _
  exact absurd (congrArg Suggestion.item_id h1) (by decide)

/-! ## C4: the wall clock is re-read between the freshness check and the
price choice -/

/-- One item whose instantaneous and windowed prices differ sharply: if the
clock moves between the two int(time.time()) call sites, the hybrid
selector flips from the latest prices to the windowed averages. -/
def c4args : BuildArgs :=
  { budget_gp := 10000,
    mapping := [],
    latest := [(1, ⟨some 100, some 120, some c2now, some c2now⟩)],
    one_hour := [(1, ⟨some 50, some 300, some 1000, some 1000⟩)],
    min_unit_roi := 0,
    min_unit_profit_gp := 0,
    aggressiveness := 0,
    liquidity_fraction := 1,
    min_hourly_volume := 0,
    max_fill_hours := 10,
    price_source := "hybrid",
    latest_max_age_min := 30,
    fresh_minutes := 120,
    fresh_policy := "all",
    remaining_limits := none,
    top_n := 10,
    include_item_ids := none }

/-- Output when both samples read c2now (latest prices used). -/
def c4sugA : Suggestion :=
  { item_id := 1,
    item_name := "1",
    buy_limit := none,
    buy_price_gp := 100,
    sell_price_gp := 120,
    unit_profit_gp := 18,
    unit_roi := 18 / 100,
    quantity := 100,
    total_profit_gp := 1800,
    hourly_volume := 1000,
    expected_fill_hours := 1 / 5,
    profit_per_hour_gp := 9000,
    official_ge_price := none,
    buy_hourly_volume := 1000,
    sell_hourly_volume := 1000,
    buy_fill_hours := 1 / 10,
    sell_fill_hours := 1 / 10,
    remaining_limit := none }

/-- Output when the choice-site sample reads c2now + 3600 (windowed
averages used). -/
def c4sugB : Suggestion :=
  { item_id := 1,
    item_name := "1",
    buy_limit := none,
    buy_price_gp := 50,
    sell_price_gp := 300,
    unit_profit_gp := 244,
    unit_roi := 244 / 50,
    quantity := 200,
    total_profit_gp := 48800,
    hourly_volume := 1000,
    expected_fill_hours := 2 / 5,
    profit_per_hour_gp := 122000,
    official_ge_price := none,
    buy_hourly_volume := 1000,
    sell_hourly_volume := 1000,
    buy_fill_hours := 1 / 5,
    sell_fill_hours := 1 / 5,
    remaining_limit := none }

theorem c4_fresh : _is_fresh_enough (dictGet c4args.latest 1)
    c4args.fresh_minutes c4args.fresh_policy c2now = true := by
  norm_num [_is_fresh_enough, dictGet, c4args, c2now]

theorem c4_chooseA : _choose_prices_for_item 1 c4args.latest c4args.one_hour
    five_min_data c4args.price_source c4args.latest_max_age_min c2now =
    some (100, 120, 1000, 1000) := by
  norm_num [_choose_prices_for_item, dictGet, five_min_data, c4args, c2now]
  all_goals decide

theorem c4_chooseB : _choose_prices_for_item 1 c4args.latest c4args.one_hour
    five_min_data c4args.price_source c4args.latest_max_age_min
    (c2now + 3600) = some (50, 300, 1000, 1000) := by
  norm_num [_choose_prices_for_item, dictGet, five_min_data, c4args, c2now]
  all_goals decide

theorem c4a_adjust : _adjust_prices_for_aggressiveness 100 120
    c4args.aggressiveness = (100, 120) := by
  norm_num [_adjust_prices_for_aggressiveness, pyInt, c4args, min_def, max_def]

theorem c4a_buyPrice : buyPrice c4args 100 120 = 100 := by
  unfold buyPrice
  rw [c4a_adjust]

theorem c4a_sellPrice : sellPrice c4args 100 120 = 120 := by
  unfold sellPrice
  rw [c4a_adjust]

theorem c4_cap : capacityPerHour c4args 1000 = 1000 := by
  unfold capacityPerHour
  norm_num [pyInt, c4args, min_def, max_def]

theorem c4_mqt : maxQtyByTime c4args 1000 = 10000 := by
  unfold maxQtyByTime
  norm_num [pyInt, c4args, max_def]

theorem c4a_mbb : maxByBudget c4args 100 120 = 100 := by
  unfold maxByBudget
  rw [c4a_buyPrice]
  decide

theorem c4a_qa : qtyAfterLiquidity c4args 1 100 120 1000 1000 = 100 := by
  unfold qtyAfterLiquidity
  rw [c4a_mbb, c4_cap]
  simp [buyLimitOf, remEff, dictGet, minOpt, c4args]

theorem c4a_qty : quantityOf c4args 1 100 120 1000 1000 = 100 := by
  unfold quantityOf
  rw [c4a_qa, c4_mqt]
  decide

theorem c4a_tp : totalProfitOf c4args 1 100 120 1000 1000 = 1800 := by
  unfold totalProfitOf
  rw [c4a_qty, c4a_sellPrice, c2_tax, c4a_buyPrice]
  decide

theorem c4a_up : unitProfitOf c4args 1 100 120 1000 1000 = 18 := by
  unfold unitProfitOf
  rw [c4a_tp, c4a_qty]
  decide

theorem c4a_roi : unitRoiOf c4args 1 100 120 1000 1000 = 18 / 100 := by
  unfold unitRoiOf
  rw [c4a_up, c4a_buyPrice]
  norm_num

theorem c4a_fill : fillHours c4args 1 100 120 1000 1000 1000 = 1 / 10 := by
  unfold fillHours
  rw [c4a_qty]
  norm_num [max_def]

theorem c4a_eff : expectedFillHours c4args 1 100 120 1000 1000 = 1 / 5 := by
  unfold expectedFillHours
  rw [c4a_fill]
  norm_num

theorem c4a_pph : profitPerHour c4args 1 100 120 1000 1000 = 9000 := by
  unfold profitPerHour
  rw [c4a_eff, c4a_tp]
  norm_num

theorem c4b_adjust : _adjust_prices_for_aggressiveness 50 300
    c4args.aggressiveness = (50, 300) := by
  norm_num [_adjust_prices_for_aggressiveness, pyInt, c4args, min_def, max_def]

theorem c4b_buyPrice : buyPrice c4args 50 300 = 50 := by
  unfold buyPrice
  rw [c4b_adjust]

theorem c4b_sellPrice : sellPrice c4args 50 300 = 300 := by
  unfold sellPrice
  rw [c4b_adjust]

theorem c4b_mbb : maxByBudget c4args 50 300 = 200 := by
  unfold maxByBudget
  rw [c4b_buyPrice]
  decide

theorem c4b_qa : qtyAfterLiquidity c4args 1 50 300 1000 1000 = 200 := by
  unfold qtyAfterLiquidity
  rw [c4b_mbb, c4_cap]
  simp [buyLimitOf, remEff, dictGet, minOpt, c4args]

theorem c4b_qty : quantityOf c4args 1 50 300 1000 1000 = 200 := by
  unfold quantityOf
  rw [c4b_qa, c4_mqt]
  decide

theorem c4b_tax : _compute_tax_per_unit 300 = 6 := by
  norm_num [_compute_tax_per_unit, pyInt, GE_TAX_RATE, GE_TAX_CAP, min_def]

theorem c4b_tp : totalProfitOf c4args 1 50 300 1000 1000 = 48800 := by
  unfold totalProfitOf
  rw [c4b_qty, c4b_sellPrice, c4b_tax, c4b_buyPrice]
  decide

theorem c4b_up : unitProfitOf c4args 1 50 300 1000 1000 = 244 := by
  unfold unitProfitOf
  rw [c4b_tp, c4b_qty]
  decide

theorem c4b_roi : unitRoiOf c4args 1 50 300 1000 1000 = 244 / 50 := by
  unfold unitRoiOf
  rw [c4b_up, c4b_buyPrice]
  norm_num

theorem c4b_fill : fillHours c4args 1 50 300 1000 1000 1000 = 1 / 5 := by
  unfold fillHours
  rw [c4b_qty]
  norm_num [max_def]

theorem c4b_eff : expectedFillHours c4args 1 50 300 1000 1000 = 2 / 5 := by
  unfold expectedFillHours
  rw [c4b_fill]
  norm_num

theorem c4b_pph : profitPerHour c4args 1 50 300 1000 1000 = 122000 := by
  unfold profitPerHour
  rw [c4b_eff, c4b_tp]
  norm_num

theorem c4_processItemA : processItem c4args 1 c2now c2now = some c4sugA := by
  rw [processItem_eval c4args 1 c2now c2now 100 120 1000 1000 c4_fresh
    c4_chooseA (by decide) (by decide) (by decide)
    (by rw [c4a_mbb]; decide)
    (by rw [c4a_qa]; decide)
    (by rw [c4_mqt]; simp)
    (by rw [c4a_qty]; decide)
    (by rw [c4a_up, c4a_roi]; norm_num [c4args])]
  rw [c4sugA]
  rw [c4a_buyPrice, c4a_sellPrice, c4a_up, c4a_roi, c4a_qty, c4a_tp, c4a_eff,
    c4a_pph, c4a_fill, min_self]
  have hnm : itemNameOf c4args 1 = "1" := by decide
  have hbl : buyLimitOf c4args 1 = none := by decide
  have hre : remEff c4args.remaining_limits 1 = none := rfl
  rw [hnm, hbl, hre]

theorem c4_processItemB : processItem c4args 1 c2now (c2now + 3600) =
    some c4sugB := by
  rw [processItem_eval c4args 1 c2now (c2now + 3600) 50 300 1000 1000 c4_fresh
    c4_chooseB (by decide) (by decide) (by decide)
    (by rw [c4b_mbb]; decide)
    (by rw [c4b_qa]; decide)
    (by rw [c4_mqt]; simp)
    (by rw [c4b_qty]; decide)
    (by rw [c4b_up, c4b_roi]; norm_num [c4args])]
  rw [c4sugB]
  rw [c4b_buyPrice, c4b_sellPrice, c4b_up, c4b_roi, c4b_qty, c4b_tp, c4b_eff,
    c4b_pph, c4b_fill, min_self]
  have hnm : itemNameOf c4args 1 = "1" := by decide
  have hbl : buyLimitOf c4args 1 = none := by decide
  have hre : remEff c4args.remaining_limits 1 = none := rfl
  rw [hnm, hbl, hre]

theorem c4_evalA : build_suggestions c4args (fun _ => c2now)
    (fun _ => c2now) = [c4sugA] := by
  have hinc : c4args.include_item_ids = none := rfl
  have huniv : dedupKeys (c4args.one_hour.map Prod.fst ++
    c4args.latest.map Prod.fst) = [1] := by decide
  have htop : (max 1 c4args.top_n).toNat = 10 := by decide
  unfold build_suggestions
  rw [hinc, huniv]
  simp only [List.filterMap_cons, List.filterMap_nil]
  rw [c4_processItemA]
  simp only [List.insertionSort, List.orderedInsert]
  rw [htop]
  rfl

theorem c4_evalB : build_suggestions c4args (fun _ => c2now)
    (fun _ => c2now + 3600) = [c4sugB] := by
  have hinc : c4args.include_item_ids = none := rfl
  have huniv : dedupKeys (c4args.one_hour.map Prod.fst ++
    c4args.latest.map Prod.fst) = [1] := by decide
  have htop : (max 1 c4args.top_n).toNat = 10 := by decide
  unfold build_suggestions
  rw [hinc, huniv]
  simp only [List.filterMap_cons, List.filterMap_nil]
  rw [c4_processItemB]
  simp only [List.insertionSort, List.orderedInsert]
  rw [htop]
  rfl

/-- C4 (code evidence): the engine's output depends on the clock sample
taken inside _choose_prices_for_item even when the sample taken inside
_is_fresh_enough is the same — the wall clock is re-read between the two
call sites rather than read once per invocation and held constant. -/
theorem C4_clock_resample_observable :
    build_suggestions c4args (fun _ => c2now) (fun _ => c2now) ≠
      build_suggestions c4args (fun _ => c2now) (fun _ => c2now + 3600) := by
  rw [c4_evalA, c4_evalB]
  intro h
  injection h with h1 _
  exact absurd (congrArg Suggestion.buy_price_gp h1) (by decide)

/-! ## C5 counterexample: a liquidity capacity that rounds to zero is
clamped up to 1, not excluded -/

/-- One item with volume 1 on each side and liquidity_fraction 0.4, so
int(liquidity_fraction * volume) = 0. -/
def c5args : BuildArgs :=
  { budget_gp := 10000,
    mapping := [],
    latest := [],
    one_hour := [(1, ⟨some 100, some 120, some 1, some 1⟩)],
    min_unit_roi := 0,
    min_unit_profit_gp := 0,
    aggressiveness := 0,
    liquidity_fraction := 2 / 5,
    min_hourly_volume := 0,
    max_fill_hours := 10,
    price_source := "1h",
    latest_max_age_min := 30,
    fresh_minutes := 0,
    fresh_policy := "all",
    remaining_limits := none,
    top_n := 10,
    include_item_ids := none }

/-- The Suggestion the engine emits for it, quantity clamped to 1. -/
def c5sug : Suggestion :=
  { item_id := 1,
    item_name := "1",
    buy_limit := none,
    buy_price_gp := 100,
    sell_price_gp := 120,
    unit_profit_gp := 18,
    unit_roi := 18 / 100,
    quantity := 1,
    total_profit_gp := 18,
    hourly_volume := 1,
    expected_fill_hours := 2,
    profit_per_hour_gp := 9,
    official_ge_price := none,
    buy_hourly_volume := 1,
    sell_hourly_volume := 1,
    buy_fill_hours := 1,
    sell_fill_hours := 1,
    remaining_limit := none }

theorem c5_adjust : _adjust_prices_for_aggressiveness 100 120
    c5args.aggressiveness = (100, 120) := by
  norm_num [_adjust_prices_for_aggressiveness, pyInt, c5args, min_def, max_def]

theorem c5_buyPrice : buyPrice c5args 100 120 = 100 := by
  unfold buyPrice
  rw [c5_adjust]

theorem c5_sellPrice : sellPrice c5args 100 120 = 120 := by
  unfold sellPrice
  rw [c5_adjust]

theorem c5_cap : capacityPerHour c5args 1 = 1 := by
  unfold capacityPerHour
  norm_num [pyInt, c5args, min_def, max_def]

theorem c5_mbb : maxByBudget c5args 100 120 = 100 := by
  unfold maxByBudget
  rw [c5_buyPrice]
  decide

theorem c5_mqt : maxQtyByTime c5args 1 = 10 := by
  unfold maxQtyByTime
  norm_num [pyInt, c5args, max_def]

theorem c5_qa : qtyAfterLiquidity c5args 1 100 120 1 1 = 1 := by
  unfold qtyAfterLiquidity
  rw [c5_mbb, c5_cap]
  simp [buyLimitOf, remEff, dictGet, minOpt, c5args]

theorem c5_qty : quantityOf c5args 1 100 120 1 1 = 1 := by
  unfold quantityOf
  rw [c5_qa, c5_mqt]
  decide

theorem c5_tp : totalProfitOf c5args 1 100 120 1 1 = 18 := by
  unfold totalProfitOf
  rw [c5_qty, c5_sellPrice, c2_tax, c5_buyPrice]
  decide

theorem c5_up : unitProfitOf c5args 1 100 120 1 1 = 18 := by
  unfold unitProfitOf
  rw [c5_tp, c5_qty]
  decide

theorem c5_roi : unitRoiOf c5args 1 100 120 1 1 = 18 / 100 := by
  unfold unitRoiOf
  rw [c5_up, c5_buyPrice]
  norm_num

theorem c5_fill : fillHours c5args 1 100 120 1 1 1 = 1 := by
  unfold fillHours
  rw [c5_qty]
  norm_num [max_def]

theorem c5_eff : expectedFillHours c5args 1 100 120 1 1 = 2 := by
  unfold expectedFillHours
  rw [c5_fill]
  norm_num

theorem c5_pph : profitPerHour c5args 1 100 120 1 1 = 9 := by
  unfold profitPerHour
  rw [c5_eff, c5_tp]
  norm_num

theorem c5_fresh : _is_fresh_enough (dictGet c5args.latest 1)
    c5args.fresh_minutes c5args.fresh_policy 0 = true := by
  norm_num [_is_fresh_enough, c5args]

theorem c5_processItem : processItem c5args 1 0 0 = some c5sug := by
  rw [processItem_eval c5args 1 0 0 100 120 1 1 c5_fresh
    (by decide) (by decide) (by decide) (by decide)
    (by rw [c5_mbb]; decide)
    (by rw [c5_qa]; decide)
    (by rw [c5_mqt]; simp)
    (by rw [c5_qty]; decide)
    (by rw [c5_up, c5_roi]; norm_num [c5args])]
  rw [c5sug]
  rw [c5_buyPrice, c5_sellPrice, c5_up, c5_roi, c5_qty, c5_tp, c5_eff,
    c5_pph, c5_fill, min_self]
  have hnm : itemNameOf c5args 1 = "1" := by decide
  have hbl : buyLimitOf c5args 1 = none := by decide
  have hre : remEff c5args.remaining_limits 1 = none := rfl
  rw [hnm, hbl, hre]

theorem c5_build_eval : build_suggestions c5args (fun _ => 0)
    (fun _ => 0) = [c5sug] := by
  have hinc : c5args.include_item_ids = none := rfl
  have huniv : dedupKeys (c5args.one_hour.map Prod.fst ++
    c5args.latest.map Prod.fst) = [1] := by decide
  have htop : (max 1 c5args.top_n).toNat = 10 := by decide
  unfold build_suggestions
  rw [hinc, huniv]
  simp only [List.filterMap_cons, List.filterMap_nil]
  rw [c5_processItem]
  simp only [List.insertionSort, List.orderedInsert]
  rw [htop]
  rfl

/-- C5 counterexample: int(liquidity_fraction * volume) is zero for this
item, yet the engine emits it with quantity 1 (the capacity is clamped to
max(1, ...)); under the claim the zero intermediate value would have
excluded the item, and the emitted quantity 1 exceeds
liquidity_fraction * volume = 0.4. -/
theorem C5_counterexample :
    pyInt ((1 : ℚ) * max 0 (min 1 c5args.liquidity_fraction)) = 0 ∧
    build_suggestions c5args (fun _ => 0) (fun _ => 0) = [c5sug] ∧
    c5sug.quantity = 1 := by
  refine ⟨?_, c5_build_eval, rfl⟩
  norm_num [pyInt, c5args, min_def, max_def]

/-! ## C9: the hybrid price-source policy -/

/-- The hybrid policy as the spec words it (section 4.1): prefer the
instantaneous record when both of its timestamps are within the freshness
threshold (in minutes) of now; else fall back to the windowed record when
present; else none. Volumes always come from the windowed record when it is
available, zero otherwise. -/
def hybridSpec (item_id : Int) (latest : List (Int × LatestEntry))
    (one_hour : List (Int × HourEntry)) (latest_max_age_min : ℚ)
    (now : Int) : Option (Int × Int × Int × Int) :=
  let lv := match dictGet one_hour item_id with
    | some h => h.lowPriceVolume.getD 0
    | none => 0
  let hv := match dictGet one_hour item_id with
    | some h => h.highPriceVolume.getD 0
    | none => 0
  let freshBoth : Bool := match dictGet latest item_id with
    | some t =>
      match t.highTime, t.lowTime with
      | some ht, some lwt =>
        decide ((now - ht : ℚ) ≤ latest_max_age_min * 60) &&
          decide ((now - lwt : ℚ) ≤ latest_max_age_min * 60)
      | some _, none => false
      | none, _ => false
    | none => false
  if freshBoth then
    match dictGet latest item_id with
    | some t => some (t.low.getD 0, t.high.getD 0, lv, hv)
    | none => none
  else
    match dictGet one_hour item_id with
    | some h => some (h.avgLowPrice.getD 0, h.avgHighPrice.getD 0, lv, hv)
    | none => none

/-- C9: with the five-minute feed absent (as it always is in this
repository — the module hook is never assigned), the selector's hybrid path
computes exactly the spec's hybrid policy. -/
theorem C9_hybrid_policy (item_id : Int)
    (latest : List (Int × LatestEntry)) (one_hour : List (Int × HourEntry))
    (lma : ℚ) (now : Int) :
    _choose_prices_for_item item_id latest one_hour none "hybrid" lma now =
      hybridSpec item_id latest one_hour lma now := by
  unfold _choose_prices_for_item hybridSpec
  rw [if_neg (by decide), if_neg (by decide)]
  simp only []
  cases hlt : dictGet latest item_id with
  | none =>
    cases hlh : dictGet one_hour item_id <;> simp
  | some t =>
    cases hht : t.highTime with
    | none =>
      cases hlh : dictGet one_hour item_id <;> simp [hht]
    | some ht =>
      cases hlwt : t.lowTime with
      | none =>
        cases hlh : dictGet one_hour item_id <;> simp [hht, hlwt]
      | some lwt =>
        simp only [hht, hlwt]
        by_cases hc : ((now - ht : ℚ) / 60 ≤ lma ∧ (now - lwt : ℚ) / 60 ≤ lma)
        · rw [if_pos hc]
          have hb : (decide ((now - ht : ℚ) ≤ lma * 60) &&
              decide ((now - lwt : ℚ) ≤ lma * 60)) = true := by
            rw [Bool.and_eq_true, decide_eq_true_eq, decide_eq_true_eq]
            exact ⟨(div_le_iff₀ (by norm_num)).mp hc.1,
              (div_le_iff₀ (by norm_num)).mp hc.2⟩
          rw [hb]
          simp
        · rw [if_neg hc]
          have hb : (decide ((now - ht : ℚ) ≤ lma * 60) &&
              decide ((now - lwt : ℚ) ≤ lma * 60)) = false := by
            rw [Bool.and_eq_false_iff]
            rcases not_and_or.mp hc with h | h
            · exact Or.inl (by
                rw [decide_eq_false_iff_not]
                intro hle
                exact h ((div_le_iff₀ (by norm_num)).mpr hle))
            · exact Or.inr (by
                rw [decide_eq_false_iff_not]
                intro hle
                exact h ((div_le_iff₀ (by norm_num)).mpr hle))
          rw [hb]
          cases hlh : dictGet one_hour item_id <;> simp

end GeTrack
